import Mathlib

/-!
# Verification of the Tatiana chat-bot response pipeline

Shallow embedding of `src/mi-bot/app.py`: the content filters
(`contains_emoji`, `strip_emojis`, `contains_forbidden_word`), the trigger
table (`handle_system_message`), the generation post-processing
(`generate_ia_response`) and the request handler (`handle_chat`).

Python strings are modelled as Lean `String` (a sequence of Unicode scalar
values, matching Python's code-point view).  The nondeterminism of
`random.choice` is an explicit index argument; the Cohere call's outcome
(success text / `NotFoundError` / other exception) is an explicit sum type;
the outcome of `save_user_history`'s swallowed exception is an explicit
three-valued `SaveOutcome`.  The process-wide `ApiKeyManager` is threaded through as
explicit state.
-/

namespace TatianaBot

/-- The character ranges of `EMOJI_PATTERN` (app.py lines 81-86):
emoticons U+1F600-U+1F64F, symbols/pictographs U+1F300-U+1F5FF,
transport/map U+1F680-U+1F6FF, regional indicators U+1F1E0-U+1F1FF. -/
def isEmojiChar (c : Char) : Bool :=
  (0x1F600 ≤ c.toNat && c.toNat ≤ 0x1F64F) ||
  (0x1F300 ≤ c.toNat && c.toNat ≤ 0x1F5FF) ||
  (0x1F680 ≤ c.toNat && c.toNat ≤ 0x1F6FF) ||
  (0x1F1E0 ≤ c.toNat && c.toNat ≤ 0x1F1FF)

/-- Python whitespace characters recognised by `str.strip()`
(the ASCII ones, which cover every string this program manipulates). -/
def isPySpace (c : Char) : Bool :=
  c = ' ' || c = '\t' || c = '\n' || c = '\x0b' || c = '\x0c' || c = '\r'

/-- Left part of Python `str.strip()`: drop leading whitespace. -/
def lstripL (l : List Char) : List Char := l.dropWhile isPySpace

/-- Right part of Python `str.strip()`: drop trailing whitespace. -/
def rstripL (l : List Char) : List Char := (l.reverse.dropWhile isPySpace).reverse

/-- Python `str.strip()` on a list of code points. -/
def pyStripL (l : List Char) : List Char := rstripL (lstripL l)

/-- Python `str.strip()`. -/
def pyStrip (s : String) : String := ⟨pyStripL s.data⟩

/-- `contains_emoji` (app.py line 113): `EMOJI_PATTERN.search(text) is not None`,
i.e. some code point lies in the emoji ranges. -/
def contains_emoji (s : String) : Bool := s.data.any isEmojiChar

/-- `strip_emojis` (app.py line 116): `EMOJI_PATTERN.sub("", text).strip()` —
remove every code point in the emoji ranges, then strip whitespace. -/
def strip_emojis (s : String) : String :=
  pyStrip ⟨s.data.filter (fun c => !isEmojiChar c)⟩

/- ### Generic lemmas about stripping -/

theorem lstripL_sublist (l : List Char) : List.Sublist (lstripL l) l :=
  List.dropWhile_sublist _

theorem rstripL_sublist (l : List Char) : List.Sublist (rstripL l) l := by
  have h := (List.dropWhile_sublist (l := l.reverse) (p := isPySpace)).reverse
  simpa [rstripL] using h

theorem pyStripL_sublist (l : List Char) : List.Sublist (pyStripL l) l :=
  (rstripL_sublist _).trans (lstripL_sublist l)

theorem dropWhile_idem (p : Char → Bool) (l : List Char) :
    (l.dropWhile p).dropWhile p = l.dropWhile p := by
  induction l with
  | nil => simp
  | cons a t ih =>
    by_cases h : p a
    · simpa [List.dropWhile_cons, h] using ih
    · simp [List.dropWhile_cons, h]

theorem dropWhile_eq_self_of_head (p : Char → Bool) (l : List Char)
    (h : ∀ c, l.head? = some c → p c = false) : l.dropWhile p = l := by
  cases l with
  | nil => simp
  | cons a t => simp [List.dropWhile_cons, h a rfl]

theorem head_lstripL_not_space (l : List Char) (c : Char)
    (h : (lstripL l).head? = some c) : isPySpace c = false := by
  induction l with
  | nil => simp [lstripL] at h
  | cons a t ih =>
    by_cases ha : isPySpace a
    · exact ih (by simpa [lstripL, List.dropWhile_cons, ha] using h)
    · simp only [lstripL, List.dropWhile_cons, ha, Bool.false_eq_true,
        if_false] at h
      cases h
      simpa using ha

theorem rstripL_prefix (l : List Char) : List.IsPrefix (rstripL l) l := by
  obtain ⟨t, ht⟩ := List.dropWhile_suffix (l := l.reverse) (p := isPySpace)
  exact ⟨t.reverse, by
    have := congrArg List.reverse ht
    simpa [rstripL, List.reverse_append] using this⟩

theorem pyStripL_idem (l : List Char) : pyStripL (pyStripL l) = pyStripL l := by
  have hls : lstripL (pyStripL l) = pyStripL l := by
    apply dropWhile_eq_self_of_head
    intro c hc
    obtain ⟨t, ht⟩ := rstripL_prefix (lstripL l)
    have : (lstripL l).head? = some c := by
      cases hm : pyStripL l with
      | nil => simp [hm] at hc
      | cons b u =>
        rw [hm] at hc
        cases hc
        have : lstripL l = c :: (u ++ t) := by
          rw [← ht]; simp [pyStripL] at hm; simp [hm]
        simp [this]
    exact head_lstripL_not_space l c this
  have hrs : rstripL (rstripL (lstripL l)) = rstripL (lstripL l) := by
    simp [rstripL, List.reverse_reverse, dropWhile_idem]
  calc pyStripL (pyStripL l) = rstripL (pyStripL l) := by rw [pyStripL, hls]
    _ = pyStripL l := hrs

theorem mem_pyStripL (l : List Char) (c : Char) (h : c ∈ pyStripL l) : c ∈ l :=
  (pyStripL_sublist l).mem h

theorem strip_emojis_data (s : String) :
    (strip_emojis s).data = pyStripL (s.data.filter (fun c => !isEmojiChar c)) := rfl

/-- Every character surviving `strip_emojis` is a non-emoji character. -/
theorem not_emoji_of_mem_strip (s : String) (c : Char)
    (h : c ∈ (strip_emojis s).data) : isEmojiChar c = false := by
  rw [strip_emojis_data] at h
  have := mem_pyStripL _ _ h
  have := List.of_mem_filter this
  simpa using this

/-- A stripped string never contains an emoji (shared helper). -/
theorem contains_emoji_strip_emojis (s : String) :
    contains_emoji (strip_emojis s) = false := by
  rw [contains_emoji]
  rw [List.any_eq_false]
  intro c hc
  simp [not_emoji_of_mem_strip s c hc]

/-- Stripping is idempotent (shared helper). -/
theorem strip_emojis_idem (s : String) :
    strip_emojis (strip_emojis s) = strip_emojis s := by
  have hfilter : (strip_emojis s).data.filter (fun c => !isEmojiChar c)
      = (strip_emojis s).data := by
    rw [List.filter_eq_self]
    intro c hc
    simp [not_emoji_of_mem_strip s c hc]
  have : strip_emojis (strip_emojis s) = ⟨pyStripL ((strip_emojis s).data)⟩ := by
    rw [strip_emojis, pyStrip]
    exact congrArg (fun l => String.mk (pyStripL l)) hfilter
  rw [this, strip_emojis_data, pyStripL_idem]
  rfl

/- ### Data model -/

/-- A conversation turn as stored in `history` (a dict
`{"role": ..., "message": ...}` in app.py). -/
structure Msg where
  role : String
  message : String
deriving DecidableEq, Repr

/-- A user's session record (`get_user_history` / `save_user_history`):
the history plus the `emoji_last_message` flag. -/
structure Session where
  history : List Msg
  emoji_last_message : Bool
deriving DecidableEq, Repr

/-- The outcome of the Cohere `chat` call inside `generate_ia_response`:
a successful reply text, a `NotFoundError`, or any other exception. -/
inductive CohereOutcome where
  | success (text : String)
  | notFound
  | otherError
deriving DecidableEq, Repr

/-- `ApiKeyManager` (app.py lines 21-38): ordered key list and current index. -/
structure ApiKeyManager where
  keys : List String
  current_index : Nat
deriving DecidableEq, Repr

/-- `ApiKeyManager.rotate_to_next_key`: advance the index modulo pool size. -/
def rotate_to_next_key (km : ApiKeyManager) : ApiKeyManager :=
  ⟨km.keys, (km.current_index + 1) % km.keys.length⟩

/-- The credential used by `ApiKeyManager.get_current_client`:
`self.keys[self.current_index]`. -/
def get_current_key (km : ApiKeyManager) : String :=
  km.keys.getD km.current_index ""

/- ### Configuration constants (app.py lines 87-99) -/

def RANDOM_EMOJIS : List String := [" 😉", " 😘", " 😊", " 🔥", " 😈", " 😏", " 🥺"]

def FALLBACK_FILLERS : List String := ["jaja si", "ok", "dale", "listo"]

def FORBIDDEN_WORDS : List String := ["sexi", "hago"]

def IGNORED_USERS : List String := ["game of thrones"]

/-- `BotConfig.PREDEFINED_RESPONSES` as an insertion-ordered association list
(Python dicts preserve insertion order). -/
def PREDEFINED_RESPONSES : List (String × String) :=
  [("[Recordatorio en línea]", "Hola cielo como estas"),
   ("es muy emparejado para ti", "Holis busco novio y tú estas lindo 🥺"),
   ("monedas de oro para saludarle", "Holis busco novio y tú estas lindo 🥺"),
   ("Te he seguido. Podemos ser amigos", "Te he seguido")]

/-- The fixed first-turn opening line (app.py line 247). -/
def FIRST_MESSAGE : String := "Holis busco novio y tú estas lindo 🥺"

/- ### Forbidden-word filter -/

/-- A `\w` word character of Python's `re` (over the ASCII alphabet used by
the configured denylist). -/
def isWordChar (c : Char) : Bool := c.isAlphanum || c = '_'

def prevOk : Option Char → Bool
  | none => true
  | some c => !isWordChar c

def nextOk : List Char → Bool
  | [] => true
  | c :: _ => !isWordChar c

/-- Scan `t` for an occurrence of the word `w` delimited by `\b` word
boundaries, remembering the previous character. -/
def searchWordFrom (w : List Char) (prev : Option Char) : List Char → Bool
  | [] => prevOk prev && w.isPrefixOf ([] : List Char) && nextOk []
  | c :: r =>
    (prevOk prev && w.isPrefixOf (c :: r) && nextOk ((c :: r).drop w.length))
      || searchWordFrom w (some c) r

/-- Python `str.lower()` (ASCII case folding, which covers the denylist). -/
def pyLower (s : String) : String := ⟨s.data.map Char.toLower⟩

/-- `contains_forbidden_word` (app.py lines 152-158): case-insensitive
whole-word search of each denylist entry. -/
def contains_forbidden_word (s : String) : Bool :=
  FORBIDDEN_WORDS.any fun wrd => searchWordFrom wrd.data none (pyLower s).data

/- ### Trigger table -/

/-- `handle_system_message` (app.py lines 160-165): first trigger substring
found in the message, in insertion order, yields its canned response. -/
def handle_system_message (m : String) : Option String :=
  (PREDEFINED_RESPONSES.find? fun p => decide (List.IsInfix p.1.data m.data)).map (·.2)

/- ### Reply generation and post-processing (`generate_ia_response`) -/

/-- Role translation when building `cohere_history` (app.py line 172):
`"USER" if msg.get("role") == "USER" else "CHATBOT"`. -/
def cohereRole (r : String) : String := if r == "USER" then "USER" else "CHATBOT"

def cohere_history (h : List Msg) : List Msg :=
  h.map fun m => ⟨cohereRole m.role, m.message⟩

/-- `last_bot_message` (app.py line 174): the message of the most recent
CHATBOT turn, scanning from the end. -/
def last_bot_message (ch : List Msg) : Option String :=
  (ch.reverse.find? fun m => m.role == "CHATBOT").map (·.message)

/-- The candidate `ia_reply` produced by the try/except block
(app.py lines 178-195): the trimmed provider text on success, or one of the
two fixed fallback lines on failure. -/
def candidateReply : CohereOutcome → String
  | .success t => pyStrip t
  | .notFound => "El modelo ya no está disponible 😅"
  | .otherError => "mmm me perdi jaja 😅"

/-- The filler picked by `random.choice(["jaja si", "ok", "dale", "listo"])`. -/
def fillerAt (i : Fin 4) : String := FALLBACK_FILLERS.getD i.val ""

/-- The emoji picked by `random.choice(RANDOM_EMOJIS)`. -/
def emojiAt (i : Fin 7) : String := RANDOM_EMOJIS.getD i.val ""

/-- The anti-repeat / anti-empty / forbidden-word gate (app.py lines 197-200):
substitute a filler when the candidate is empty, repeats the last CHATBOT
turn, or contains a forbidden word. -/
def preEmojiReply (c : String) (lastBot : Option String) (fc : Fin 4) : String :=
  let is_repeat := (c != "") && (lastBot == some c)
  let is_forbidden := contains_forbidden_word c
  if (c == "") || is_repeat || is_forbidden then fillerAt fc else c

/-- The emoji-alternation step (app.py lines 202-209), parameterised by the
entry value of `emoji_last_message`. -/
def emojiStage (r : String) (emoji_last : Bool) (ec : Fin 7) : String :=
  if !emoji_last then
    (if contains_emoji r then r else r ++ emojiAt ec)
  else strip_emojis r

/-- The value of `generate_ia_response`: final reply, updated session,
key-manager state and the credential that the Cohere call used. -/
structure GenResult where
  reply : String
  session : Session
  km : ApiKeyManager
  used_key : String
deriving DecidableEq, Repr

/-- `generate_ia_response` (app.py lines 168-213).  The provider call's
outcome and the two `random.choice` draws are explicit arguments. -/
def generate_ia_response (km : ApiKeyManager) (outcome : CohereOutcome)
    (fc : Fin 4) (ec : Fin 7) (user_message : String) (s : Session) : GenResult :=
  let ch := cohere_history s.history
  let lastBot := last_bot_message ch
  let used := get_current_key km
  let c := candidateReply outcome
  let r1 := preEmojiReply c lastBot fc
  let should_have_emoji := !s.emoji_last_message
  let r2 := emojiStage r1 s.emoji_last_message ec
  let history' := s.history ++ [⟨"USER", user_message⟩, ⟨"CHATBOT", r2⟩]
  ⟨r2, ⟨history', should_have_emoji⟩, km, used⟩

/- ### The request handler (`handle_chat`) -/

/-- The user-visible outcome of one `/chat` request.  `serverError` is the
generic "Error en el servidor" 500 produced by `handle_chat`'s outermost
`except` (app.py lines 267-269). -/
inductive ChatResult where
  | badRequest (msg : String)
  | ignored
  | reply (text : String)
  | serverError
deriving DecidableEq, Repr

/-- What happens inside `save_user_history` (app.py lines 136-150).
`conn = get_db_connection()` at line 137 sits *outside* the `try`, and
`get_db_connection` re-raises on failure (app.py line 58), so a connection
failure at save time propagates out of `save_user_history`
(`connectError`).  An exception raised inside the `try` — the INSERT or the
commit — is logged and swallowed (`queryError`), leaving the record
unchanged. -/
inductive SaveOutcome where
  | ok
  | queryError
  | connectError
deriving DecidableEq, Repr

/-- The tail of each reply path of `handle_chat`: call `save_user_history`
and return.  On `ok` the upsert replaces the record; on `queryError` the
exception is swallowed inside `save_user_history` and the computed reply is
still returned; on `connectError` the exception propagates to `handle_chat`'s
outer `except`, which returns the generic 500, the record untouched. -/
def save_and_reply (resp : String) (s' : Session) (stored : Option Session)
    (km : ApiKeyManager) (save : SaveOutcome) :
    ChatResult × Option Session × ApiKeyManager :=
  match save with
  | .ok => (.reply resp, some s', km)
  | .queryError => (.reply resp, stored, km)
  | .connectError => (.serverError, stored, km)

/-- `handle_chat` (app.py lines 218-269) from the point where `user_id` and
`message` have been extracted from the JSON body.  `stored` is the user's
record in the database (`none` when absent); `save` is the outcome of the
`save_user_history` call on the paths that reach it.  Returns the HTTP-level
result, the database record after the request, and the key-manager state. -/
def handle_chat (km : ApiKeyManager) (user_id user_message : String)
    (stored : Option Session) (outcome : CohereOutcome) (fc : Fin 4) (ec : Fin 7)
    (save : SaveOutcome) : ChatResult × Option Session × ApiKeyManager :=
  if (user_id == "") || (user_message == "") then
    (.badRequest "Error: faltan parámetros", stored, km)
  else if IGNORED_USERS.contains (pyLower (pyStrip user_id)) then
    (.ignored, stored, km)
  else
    let s := stored.getD ⟨[], false⟩
    if s.history.isEmpty then
      let s' : Session := ⟨s.history ++ [⟨"USER", user_message⟩,
        ⟨"CHATBOT", FIRST_MESSAGE⟩], contains_emoji FIRST_MESSAGE⟩
      save_and_reply FIRST_MESSAGE s' stored km save
    else
      match handle_system_message user_message with
      | some resp =>
        let s' : Session := ⟨s.history ++ [⟨"USER", user_message⟩,
          ⟨"CHATBOT", resp⟩], contains_emoji resp⟩
        save_and_reply resp s' stored km save
      | none =>
        let g := generate_ia_response km outcome fc ec user_message s
        save_and_reply g.reply g.session stored g.km save

/- ### Iterated requests for one user (reachable persisted states) -/

/-- One inbound request for a fixed user: the message, the provider outcome,
the two random draws and the `save_user_history` outcome. -/
structure Request where
  user_message : String
  outcome : CohereOutcome
  fc : Fin 4
  ec : Fin 7
  save : SaveOutcome

/-- Process one request against the user's stored record and the key manager. -/
def stepRequest (uid : String) (st : Option Session × ApiKeyManager)
    (r : Request) : Option Session × ApiKeyManager :=
  let out := handle_chat st.2 uid r.user_message st.1 r.outcome r.fc r.ec r.save
  (out.2.1, out.2.2)

/-- Process a sequence of requests for one user (fresh user: `none`). -/
def runRequests (uid : String) (reqs : List Request)
    (init : Option Session × ApiKeyManager) : Option Session × ApiKeyManager :=
  reqs.foldl (stepRequest uid) init

/-- The message of the most recently appended AGENT (CHATBOT) turn. -/
def last_agent_message (h : List Msg) : Option String :=
  (h.reverse.find? fun m => m.role == "CHATBOT").map (·.message)

/-- A fixed one-key manager used to instantiate concrete scenarios. -/
def km0 : ApiKeyManager := ⟨["key-1"], 0⟩

/- ### Helper lemmas about the pipeline -/

theorem generate_reply_eq (km : ApiKeyManager) (outcome : CohereOutcome)
    (fc : Fin 4) (ec : Fin 7) (um : String) (s : Session) :
    (generate_ia_response km outcome fc ec um s).reply
      = emojiStage (preEmojiReply (candidateReply outcome)
          (last_bot_message (cohere_history s.history)) fc)
          s.emoji_last_message ec := rfl

theorem generate_flag_eq (km : ApiKeyManager) (outcome : CohereOutcome)
    (fc : Fin 4) (ec : Fin 7) (um : String) (s : Session) :
    (generate_ia_response km outcome fc ec um s).session.emoji_last_message
      = !s.emoji_last_message := rfl

theorem generate_history_eq (km : ApiKeyManager) (outcome : CohereOutcome)
    (fc : Fin 4) (ec : Fin 7) (um : String) (s : Session) :
    (generate_ia_response km outcome fc ec um s).session.history
      = s.history ++ [⟨"USER", um⟩,
          ⟨"CHATBOT", (generate_ia_response km outcome fc ec um s).reply⟩] := rfl

theorem contains_emoji_append (a b : String) :
    contains_emoji (a ++ b) = (contains_emoji a || contains_emoji b) := by
  simp [contains_emoji, String.data_append, List.any_append]

/-- Each entry of `RANDOM_EMOJIS` either matches `EMOJI_PATTERN` or is the
one entry — `" 🥺"` (U+1F97A) — that lies outside every pattern range. -/
theorem emojiAt_spec :
    ∀ i : Fin 7, contains_emoji (emojiAt i) = true ∨ emojiAt i = " 🥺" := by decide

/-- After the flag-false branch of the emoji stage, the reply either matches
`EMOJI_PATTERN` or carries the undetected appended `" 🥺"`. -/
theorem emojiStage_false_spec (r : String) (ec : Fin 7) :
    contains_emoji (emojiStage r false ec) = true
      ∨ ∃ b, emojiStage r false ec = b ++ " 🥺" := by
  rw [emojiStage]
  by_cases h : contains_emoji r
  · left; simp [h]
  · rw [Bool.not_eq_true] at h
    simp only [h, Bool.not_false, if_true, Bool.false_eq_true, if_false]
    rcases emojiAt_spec ec with h1 | h1
    · left; rw [contains_emoji_append, h1, Bool.or_true]
    · right; exact ⟨r, by rw [h1]⟩

theorem last_agent_append (h : List Msg) (u c : String) :
    last_agent_message (h ++ [⟨"USER", u⟩, ⟨"CHATBOT", c⟩]) = some c := by
  simp [last_agent_message, List.reverse_append]

/-- Soundness of the persisted flag: whenever it is `false`, the most recent
AGENT turn matches no emoji. -/
def FlagSound (o : Option Session) : Prop :=
  ∀ s m, o = some s → last_agent_message s.history = some m →
    s.emoji_last_message = false → contains_emoji m = false

theorem flag_sound_none : FlagSound none := by
  intro s m hs
  cases hs

theorem flag_sound_literal (h : List Msg) (um resp : String) :
    FlagSound (some ⟨h ++ [⟨"USER", um⟩, ⟨"CHATBOT", resp⟩],
      contains_emoji resp⟩) := by
  intro t m ht hm hf
  cases ht
  rw [last_agent_append] at hm
  cases hm
  exact hf

theorem flag_sound_generate (km : ApiKeyManager) (outcome : CohereOutcome)
    (fc : Fin 4) (ec : Fin 7) (um : String) (s : Session) :
    FlagSound (some (generate_ia_response km outcome fc ec um s).session) := by
  intro t m ht hm hf
  cases ht
  rw [generate_history_eq, last_agent_append] at hm
  cases hm
  rw [generate_flag_eq] at hf
  have hflag : s.emoji_last_message = true := by simpa using hf
  rw [generate_reply_eq, hflag]
  exact contains_emoji_strip_emojis _

theorem handle_chat_flag_sound (km : ApiKeyManager) (uid um : String)
    (stored : Option Session) (outcome : CohereOutcome) (fc : Fin 4) (ec : Fin 7)
    (save : SaveOutcome) (h : FlagSound stored) :
    FlagSound (handle_chat km uid um stored outcome fc ec save).2.1 := by
  by_cases h1 : ((uid == "") || (um == "")) = true
  · simpa [handle_chat, h1] using h
  · by_cases h2 : pyLower (pyStrip uid) ∈ IGNORED_USERS
    · simpa [handle_chat, h1, h2] using h
    · by_cases h3 : (stored.getD ⟨[], false⟩).history = []
      · cases save with
        | ok =>
          simpa [handle_chat, save_and_reply, h1, h2, h3] using
            flag_sound_literal (stored.getD ⟨[], false⟩).history um FIRST_MESSAGE
        | queryError => simpa [handle_chat, save_and_reply, h1, h2, h3] using h
        | connectError => simpa [handle_chat, save_and_reply, h1, h2, h3] using h
      · cases hsys : handle_system_message um with
        | some resp =>
          cases save with
          | ok =>
            simpa [handle_chat, save_and_reply, h1, h2, h3, hsys] using
              flag_sound_literal (stored.getD ⟨[], false⟩).history um resp
          | queryError =>
            simpa [handle_chat, save_and_reply, h1, h2, h3, hsys] using h
          | connectError =>
            simpa [handle_chat, save_and_reply, h1, h2, h3, hsys] using h
        | none =>
          cases save with
          | ok =>
            simpa [handle_chat, save_and_reply, h1, h2, h3, hsys] using
              flag_sound_generate km outcome fc ec um (stored.getD ⟨[], false⟩)
          | queryError =>
            simpa [handle_chat, save_and_reply, h1, h2, h3, hsys] using h
          | connectError =>
            simpa [handle_chat, save_and_reply, h1, h2, h3, hsys] using h

theorem handle_chat_km_eq (km : ApiKeyManager) (uid um : String)
    (stored : Option Session) (outcome : CohereOutcome) (fc : Fin 4) (ec : Fin 7)
    (save : SaveOutcome) :
    (handle_chat km uid um stored outcome fc ec save).2.2 = km := by
  simp only [handle_chat, save_and_reply]
  repeat' split
  all_goals rfl

theorem runRequests_km_eq (uid : String) (reqs : List Request)
    (init : Option Session × ApiKeyManager) :
    (runRequests uid reqs init).2 = init.2 := by
  induction reqs generalizing init with
  | nil => rfl
  | cons r rs ih =>
    rw [runRequests, List.foldl_cons]
    rw [show List.foldl (stepRequest uid) (stepRequest uid init r) rs
      = runRequests uid rs (stepRequest uid init r) from rfl, ih]
    exact handle_chat_km_eq ..

theorem runRequests_flag_sound (uid : String) (reqs : List Request)
    (init : Option Session × ApiKeyManager) (h : FlagSound init.1) :
    FlagSound (runRequests uid reqs init).1 := by
  induction reqs generalizing init with
  | nil => exact h
  | cons r rs ih =>
    rw [runRequests, List.foldl_cons]
    exact ih _ (handle_chat_flag_sound _ _ _ _ _ _ _ _ h)

/-- `contains_emoji` rejects the opening line: its only emoji, 🥺 (U+1F97A),
lies outside every range of `EMOJI_PATTERN`. -/
theorem first_message_no_emoji : contains_emoji FIRST_MESSAGE = false := by decide

/- ### Claim theorems -/

/-- C9: `strip_emojis` is idempotent (including its trailing whitespace trim)
and its output never contains an emoji per `contains_emoji`. -/
theorem strip_emojis_idempotent_and_clean (x : String) :
    strip_emojis (strip_emojis x) = strip_emojis x
      ∧ contains_emoji (strip_emojis x) = false :=
  ⟨strip_emojis_idem x, contains_emoji_strip_emojis x⟩

/-- C1 (amended): in `generate_ia_response`'s post-processing, the reply is
appended to history; if `emoji_last_message` was `false` on entry, the reply
either contains an emoji per `contains_emoji` or is the candidate with the
one `RANDOM_EMOJIS` entry `" 🥺"` (outside `EMOJI_PATTERN`'s ranges) appended,
and the flag is set `true`; if it was `true` on entry, the reply contains no
emoji per `contains_emoji` (all pattern emojis stripped) and the flag is set
`false`. -/
theorem generate_emoji_alternation (km : ApiKeyManager) (outcome : CohereOutcome)
    (fc : Fin 4) (ec : Fin 7) (um : String) (s : Session) :
    ((generate_ia_response km outcome fc ec um s).session.history
        = s.history ++ [⟨"USER", um⟩,
            ⟨"CHATBOT", (generate_ia_response km outcome fc ec um s).reply⟩])
    ∧ (s.emoji_last_message = false →
        (contains_emoji (generate_ia_response km outcome fc ec um s).reply = true
          ∨ ∃ b, (generate_ia_response km outcome fc ec um s).reply = b ++ " 🥺")
        ∧ (generate_ia_response km outcome fc ec um s).session.emoji_last_message
            = true)
    ∧ (s.emoji_last_message = true →
        contains_emoji (generate_ia_response km outcome fc ec um s).reply = false
        ∧ (generate_ia_response km outcome fc ec um s).session.emoji_last_message
            = false) := by
  refine ⟨generate_history_eq .., ?_, ?_⟩
  · intro hflag
    constructor
    · rw [generate_reply_eq, hflag]
      exact emojiStage_false_spec _ ec
    · rw [generate_flag_eq, hflag]
      rfl
  · intro hflag
    constructor
    · rw [generate_reply_eq, hflag]
      exact contains_emoji_strip_emojis _
    · rw [generate_flag_eq, hflag]
      rfl

/-- Witness for C1's amended theorem at a concrete flag-false session. -/
theorem generate_emoji_alternation_witness :
    (contains_emoji (generate_ia_response km0 (.success "hola") 0 0 "q"
        ⟨[⟨"USER", "a"⟩, ⟨"CHATBOT", "b"⟩], false⟩).reply = true
      ∨ ∃ b, (generate_ia_response km0 (.success "hola") 0 0 "q"
        ⟨[⟨"USER", "a"⟩, ⟨"CHATBOT", "b"⟩], false⟩).reply = b ++ " 🥺")
    ∧ (generate_ia_response km0 (.success "hola") 0 0 "q"
        ⟨[⟨"USER", "a"⟩, ⟨"CHATBOT", "b"⟩], false⟩).session.emoji_last_message
        = true :=
  (generate_emoji_alternation km0 (.success "hola") 0 0 "q"
    ⟨[⟨"USER", "a"⟩, ⟨"CHATBOT", "b"⟩], false⟩).2.1 rfl

/-- C1 counterexample to the claim as stated: with `emoji_last_message = false`
on entry, the appended random emoji `" 🥺"` (index 6) yields a reply that
`contains_emoji` rejects, even though the flag is set `true`. -/
theorem generate_emoji_alternation_counterexample :
    (⟨[⟨"USER", "a"⟩, ⟨"CHATBOT", "b"⟩], false⟩ : Session).emoji_last_message
        = false
    ∧ (generate_ia_response km0 (.success "hola") 0 6 "q"
        ⟨[⟨"USER", "a"⟩, ⟨"CHATBOT", "b"⟩], false⟩).reply = "hola 🥺"
    ∧ contains_emoji (generate_ia_response km0 (.success "hola") 0 6 "q"
        ⟨[⟨"USER", "a"⟩, ⟨"CHATBOT", "b"⟩], false⟩).reply = false
    ∧ (generate_ia_response km0 (.success "hola") 0 6 "q"
        ⟨[⟨"USER", "a"⟩, ⟨"CHATBOT", "b"⟩], false⟩).session.emoji_last_message
        = true := by decide

/-- C2 (amended): on a first turn (empty loaded history) with valid
parameters, `handle_chat` returns the fixed opening line verbatim for every
provider outcome (the provider is never consulted), appends it to history
exactly once, and persists `emoji_last_message = contains_emoji(opener)`,
which is `false` because the opener's 🥺 (U+1F97A) lies outside
`EMOJI_PATTERN`'s ranges. -/
theorem first_turn_opener (km : ApiKeyManager) (uid um : String)
    (stored : Option Session) (outcome : CohereOutcome) (fc : Fin 4) (ec : Fin 7)
    (hu : (uid == "") = false) (hm : (um == "") = false)
    (hig : pyLower (pyStrip uid) ∉ IGNORED_USERS)
    (hempty : (stored.getD ⟨[], false⟩).history = []) :
    handle_chat km uid um stored outcome fc ec .ok
      = (.reply FIRST_MESSAGE,
         some ⟨[⟨"USER", um⟩, ⟨"CHATBOT", FIRST_MESSAGE⟩], false⟩, km) := by
  simp [handle_chat, save_and_reply, hu, hm, hig, hempty, first_message_no_emoji]

/-- Witness for C2's amended theorem: fresh user "X" sending "hola". -/
theorem first_turn_opener_witness :
    (("X" == "") = false) ∧ (("hola" == "") = false)
    ∧ ((Option.none.getD (⟨[], false⟩ : Session)).history = [])
    ∧ handle_chat km0 "X" "hola" none .otherError 0 0 .ok
        = (.reply FIRST_MESSAGE,
           some ⟨[⟨"USER", "hola"⟩, ⟨"CHATBOT", FIRST_MESSAGE⟩], false⟩, km0) :=
  ⟨rfl, rfl, rfl,
    first_turn_opener km0 "X" "hola" none .otherError 0 0 rfl rfl
      (by decide) rfl⟩

/-- C2 counterexample to the claim as stated: the first turn persists
`emoji_last_message = false`, not `true`, because `contains_emoji` does not
recognise the opener's 🥺. -/
theorem first_turn_flag_counterexample :
    handle_chat km0 "X" "hola" none .otherError 0 0 .ok
      = (.reply "Holis busco novio y tú estas lindo 🥺",
         some ⟨[⟨"USER", "hola"⟩,
           ⟨"CHATBOT", "Holis busco novio y tú estas lindo 🥺"⟩], false⟩, km0)
    ∧ contains_emoji "Holis busco novio y tú estas lindo 🥺" = false := by decide

/-- C3 (amended): for every persisted session state reachable by a sequence
of requests for a fresh user, the flag never under-reports — whenever the
persisted `emoji_last_message` is `false`, the most recently appended AGENT
turn contains no emoji per `contains_emoji`.  (The converse direction of the
claimed invariant fails: the flag can be `true` while the turn fails
`contains_emoji`, see the counterexample.) -/
theorem persisted_flag_sound (uid : String) (reqs : List Request)
    (km : ApiKeyManager) (s : Session) (m : String)
    (h : (runRequests uid reqs (none, km)).1 = some s)
    (hm : last_agent_message s.history = some m)
    (hf : s.emoji_last_message = false) :
    contains_emoji m = false :=
  runRequests_flag_sound uid reqs (none, km) flag_sound_none s m h hm hf

/-- Witness for C3's amended theorem: one first-turn request persists the
opener with flag `false`, and indeed the opener fails `contains_emoji`. -/
theorem persisted_flag_sound_witness :
    ((runRequests "X" [⟨"hola", .otherError, 0, 0, .ok⟩] (none, km0)).1
        = some ⟨[⟨"USER", "hola"⟩, ⟨"CHATBOT", FIRST_MESSAGE⟩], false⟩)
    ∧ (last_agent_message [⟨"USER", "hola"⟩, ⟨"CHATBOT", FIRST_MESSAGE⟩]
        = some FIRST_MESSAGE)
    ∧ contains_emoji FIRST_MESSAGE = false :=
  ⟨by decide, by decide,
    persisted_flag_sound "X" [⟨"hola", .otherError, 0, 0, .ok⟩] km0
      ⟨[⟨"USER", "hola"⟩, ⟨"CHATBOT", FIRST_MESSAGE⟩], false⟩ FIRST_MESSAGE
      (by decide) (by decide) rfl⟩

/-- C3 counterexample to the claim as stated: after a first turn and one
generated reply whose random emoji draw is `" 🥺"`, the persisted flag is
`true` but the most recently appended AGENT turn `"hola 🥺"` fails
`contains_emoji`. -/
theorem persisted_flag_counterexample :
    (runRequests "X" [⟨"hola", .otherError, 0, 0, .ok⟩,
        ⟨"hola", .success "hola", 0, 6, .ok⟩] (none, km0)).1
      = some ⟨[⟨"USER", "hola"⟩, ⟨"CHATBOT", FIRST_MESSAGE⟩,
          ⟨"USER", "hola"⟩, ⟨"CHATBOT", "hola 🥺"⟩], true⟩
    ∧ last_agent_message [⟨"USER", "hola"⟩, ⟨"CHATBOT", FIRST_MESSAGE⟩,
        ⟨"USER", "hola"⟩, ⟨"CHATBOT", "hola 🥺"⟩] = some "hola 🥺"
    ∧ contains_emoji "hola 🥺" = false := by decide

/-- C4: on a non-first turn whose message contains a configured trigger
substring, `handle_chat` returns exactly the canned reply of the first
matching trigger in the table's insertion order (`List.find?` over the
insertion-ordered table), for every provider outcome and random draw. -/
theorem trigger_reply_returned (km : ApiKeyManager) (uid um : String)
    (stored : Option Session) (s : Session) (pr : String × String)
    (outcome : CohereOutcome) (fc : Fin 4) (ec : Fin 7) (save : SaveOutcome)
    (hu : (uid == "") = false) (hm : (um == "") = false)
    (hig : pyLower (pyStrip uid) ∉ IGNORED_USERS)
    (hs : stored = some s) (hne : s.history ≠ [])
    (hsv : save ≠ .connectError)
    (hfind : PREDEFINED_RESPONSES.find?
        (fun p => decide (List.IsInfix p.1.data um.data)) = some pr) :
    (handle_chat km uid um stored outcome fc ec save).1 = .reply pr.2 := by
  subst hs
  cases save with
  | ok =>
    simp [handle_chat, save_and_reply, hu, hm, hig, hne, handle_system_message,
      hfind]
  | queryError =>
    simp [handle_chat, save_and_reply, hu, hm, hig, hne, handle_system_message,
      hfind]
  | connectError => exact absurd rfl hsv

/-- Witness for C4: the trigger "Te he seguido. Podemos ser amigos" on a
non-first turn yields "Te he seguido" even while the provider fails. -/
theorem trigger_reply_returned_witness :
    (PREDEFINED_RESPONSES.find? (fun p => decide (List.IsInfix p.1.data
        ("Te he seguido. Podemos ser amigos").data))
      = some ("Te he seguido. Podemos ser amigos", "Te he seguido"))
    ∧ (handle_chat km0 "X" "Te he seguido. Podemos ser amigos"
        (some ⟨[⟨"USER", "a"⟩, ⟨"CHATBOT", "b"⟩], false⟩) .otherError 0 0 .ok).1
      = .reply "Te he seguido" :=
  ⟨by decide,
    trigger_reply_returned km0 "X" "Te he seguido. Podemos ser amigos"
      (some ⟨[⟨"USER", "a"⟩, ⟨"CHATBOT", "b"⟩], false⟩)
      ⟨[⟨"USER", "a"⟩, ⟨"CHATBOT", "b"⟩], false⟩
      ("Te he seguido. Podemos ser amigos", "Te he seguido")
      .otherError 0 0 .ok rfl rfl (by decide) rfl (by decide) (by decide)
      (by decide)⟩

/-- C5 (amended): a non-empty generated candidate identical to the most
recent CHATBOT turn is replaced by a filler from the fixed set
`{"jaja si", "ok", "dale", "listo"}` before the emoji stage — the repeated
text itself never reaches the emoji stage — but the final reply, after the
emoji append/strip, can still coincide with the repeated text (see the
counterexample). -/
theorem repeat_substituted_by_filler (km : ApiKeyManager)
    (outcome : CohereOutcome) (fc : Fin 4) (ec : Fin 7) (um : String)
    (s : Session) (c : String)
    (hc : candidateReply outcome = c) (hne : (c == "") = false)
    (hrep : last_bot_message (cohere_history s.history) = some c) :
    preEmojiReply c (some c) fc = fillerAt fc
    ∧ fillerAt fc ∈ FALLBACK_FILLERS
    ∧ (generate_ia_response km outcome fc ec um s).reply
        = emojiStage (fillerAt fc) s.emoji_last_message ec := by
  have hne' : c ≠ "" := by simpa using hne
  have hsub : preEmojiReply c (some c) fc = fillerAt fc := by
    simp [preEmojiReply, hne']
  refine ⟨hsub, ?_, ?_⟩
  · exact (show ∀ i : Fin 4, fillerAt i ∈ FALLBACK_FILLERS by decide) fc
  · rw [generate_reply_eq, hc, hrep, hsub]

/-- Witness for C5's amended theorem: candidate "ok" repeating the previous
CHATBOT turn "ok" is replaced by the filler "jaja si". -/
theorem repeat_substituted_by_filler_witness :
    (candidateReply (.success "ok") = "ok") ∧ (("ok" == "") = false)
    ∧ (last_bot_message (cohere_history [⟨"USER", "a"⟩, ⟨"CHATBOT", "ok"⟩])
        = some "ok")
    ∧ preEmojiReply "ok" (some "ok") 0 = fillerAt 0
    ∧ fillerAt 0 ∈ FALLBACK_FILLERS
    ∧ (generate_ia_response km0 (.success "ok") 0 0 "q"
        ⟨[⟨"USER", "a"⟩, ⟨"CHATBOT", "ok"⟩], false⟩).reply
      = emojiStage (fillerAt 0) false 0 := by
  refine ⟨by decide, rfl, by decide, ?_⟩
  exact repeat_substituted_by_filler km0 (.success "ok") 0 0 "q"
    ⟨[⟨"USER", "a"⟩, ⟨"CHATBOT", "ok"⟩], false⟩ "ok" (by decide) rfl (by decide)

/-- C5 counterexample to the claim as stated: with previous CHATBOT turn
"ok 🥺" (reachable: 🥺 survives `strip_emojis`), candidate "ok 🥺" repeats it,
the filler "ok" is substituted, but the emoji stage appends `" 🥺"` and the
final reply equals the repeated text after all. -/
theorem repeat_filler_counterexample :
    candidateReply (.success "ok 🥺") = "ok 🥺"
    ∧ last_bot_message (cohere_history [⟨"USER", "hey"⟩, ⟨"CHATBOT", "ok 🥺"⟩])
        = some "ok 🥺"
    ∧ (generate_ia_response km0 (.success "ok 🥺") 1 6 "hey"
        ⟨[⟨"USER", "hey"⟩, ⟨"CHATBOT", "ok 🥺"⟩], false⟩).reply = "ok 🥺" := by
  decide

/-- C6: a `NotFoundError` from the provider yields the fixed candidate
fallback "El modelo ya no está disponible 😅"; any other provider exception
yields "mmm me perdi jaja 😅"; the key-manager state (hence the credential
index) is never advanced by `generate_ia_response`; and for every outcome —
failures included — the call completes, returning a reply that is appended
to history (exceptions never propagate out of the pipeline). -/
theorem provider_failure_fallbacks (km : ApiKeyManager) (fc : Fin 4)
    (ec : Fin 7) (um : String) (s : Session) :
    candidateReply .notFound = "El modelo ya no está disponible 😅"
    ∧ candidateReply .otherError = "mmm me perdi jaja 😅"
    ∧ (∀ outcome, (generate_ia_response km outcome fc ec um s).km = km)
    ∧ (∀ outcome, (generate_ia_response km outcome fc ec um s).session.history
        = s.history ++ [⟨"USER", um⟩,
            ⟨"CHATBOT", (generate_ia_response km outcome fc ec um s).reply⟩]) :=
  ⟨rfl, rfl, fun _ => rfl, fun _ => rfl⟩

/-- C7: `rotate_to_next_key` is unreachable from `handle_chat`: every request
leaves the key-manager state untouched, so over any request sequence the
index stays at its initial value 0 and `get_current_client` always uses the
first configured credential. -/
theorem credential_index_never_advances (uid : String) (reqs : List Request)
    (km : ApiKeyManager) (h : km.current_index = 0) :
    (∀ um stored outcome fc ec save,
        (handle_chat km uid um stored outcome fc ec save).2.2 = km)
    ∧ (runRequests uid reqs (none, km)).2 = km
    ∧ (runRequests uid reqs (none, km)).2.current_index = 0
    ∧ get_current_key (runRequests uid reqs (none, km)).2
        = km.keys.getD 0 "" := by
  refine ⟨fun um stored outcome fc ec save => handle_chat_km_eq .., ?_, ?_, ?_⟩
  · exact runRequests_km_eq ..
  · rw [runRequests_km_eq]
    exact h
  · rw [runRequests_km_eq, get_current_key, h]

/-- Witness for C7 at a two-key pool and a concrete request sequence. -/
theorem credential_index_never_advances_witness :
    ((⟨["a", "b"], 0⟩ : ApiKeyManager).current_index = 0)
    ∧ (runRequests "X" [⟨"hola", .success "que tal", 0, 0, .ok⟩,
          ⟨"hola", .notFound, 1, 1, .ok⟩] (none, ⟨["a", "b"], 0⟩)).2
        = (⟨["a", "b"], 0⟩ : ApiKeyManager)
    ∧ (runRequests "X" [⟨"hola", .success "que tal", 0, 0, .ok⟩,
          ⟨"hola", .notFound, 1, 1, .ok⟩] (none, ⟨["a", "b"], 0⟩)).2.current_index
        = 0
    ∧ get_current_key (runRequests "X" [⟨"hola", .success "que tal", 0, 0, .ok⟩,
          ⟨"hola", .notFound, 1, 1, .ok⟩] (none, ⟨["a", "b"], 0⟩)).2
        = (["a", "b"].getD 0 "") :=
  ⟨rfl,
    (credential_index_never_advances "X"
      [⟨"hola", .success "que tal", 0, 0, .ok⟩, ⟨"hola", .notFound, 1, 1, .ok⟩]
      ⟨["a", "b"], 0⟩ rfl).2⟩

/-- C8 (amended): an exception raised *inside* `save_user_history`'s `try`
(the INSERT or the commit) is caught and logged there, and `handle_chat`
still returns the already-computed reply with success status, the stored
record left unchanged.  This does not extend to every save failure: the
`get_db_connection()` call at app.py line 137 sits outside the `try` and
re-raises, so a connection failure at save time propagates and the request
surfaces the generic server error instead (see the counterexample). -/
theorem save_failure_invisible (km : ApiKeyManager) (uid um : String)
    (stored : Option Session) (outcome : CohereOutcome) (fc : Fin 4)
    (ec : Fin 7) :
    (handle_chat km uid um stored outcome fc ec .queryError).1
        = (handle_chat km uid um stored outcome fc ec .ok).1
    ∧ (handle_chat km uid um stored outcome fc ec .queryError).2.1 = stored := by
  constructor
  · simp only [handle_chat, save_and_reply]
    repeat' split
    all_goals rfl
  · simp only [handle_chat, save_and_reply]
    repeat' split
    all_goals rfl

/-- C8 counterexample to the claim as stated: a connection failure during
`save_user_history` (raised by `get_db_connection`, which is called outside
the `try` and re-raises) propagates to `handle_chat`'s outer handler, and
the user receives the generic 500 instead of the already-computed reply —
the user-visible outcome of the request is changed. -/
theorem save_connect_failure_counterexample :
    handle_chat km0 "X" "hola" none .otherError 0 0 .connectError
      = (.serverError, none, km0)
    ∧ handle_chat km0 "X" "hola" none .otherError 0 0 .ok
      = (.reply FIRST_MESSAGE,
         some ⟨[⟨"USER", "hola"⟩, ⟨"CHATBOT", FIRST_MESSAGE⟩], false⟩, km0)
    ∧ (ChatResult.serverError ≠ ChatResult.reply FIRST_MESSAGE) := by decide

end TatianaBot
